import Mathlib

/-!
Shallow embedding of the Session & State Controller of `src/screen.py`
(class `KlipperScreen`): the single-flight Update Gate, the bounded-retry
initialization sequencer, the panel navigation stack with its subscription
registry, and the websocket notification dispatcher.  Pure Lean functions
mirror the Python methods; GUI-only side effects (widget attach, text
updates, logging) are either elided or recorded as explicit effect values.
-/

namespace KS

/-! ## Update Gate (src/screen.py:455-456, 625-641, 82-83)

`updating : bool` and `update_queue : list` are fields of `KlipperScreen`.
Queue entries in Python are singleton lists `[callback]`; we represent each
entry by an identifier of the stored callback. -/

structure GateState where
  updating : Bool
  update_queue : List Nat
deriving Repr, DecidableEq

/-- `KlipperScreen.is_updating` (src/screen.py:455-456): returns the
`updating` flag. -/
def is_updating (s : GateState) : Bool :=
  s.updating

/-- `KlipperScreen.set_updating` (src/screen.py:625-630).  When the gate was
busy, is being released, and the deferred queue is non-empty, Python does
`i = self.update_queue.pop()` (which removes and returns the LAST element),
replaces the queue by `[]`, and invokes `i[0]()`.  The returned `Option Nat`
is the identifier of the invoked deferred callback, if any. -/
def set_updating (s : GateState) (updating : Bool) : GateState × Option Nat :=
  if s.updating = true ∧ updating = false ∧ s.update_queue.length > 0 then
    ({ updating := updating, update_queue := [] }, s.update_queue.getLast?)
  else
    ({ s with updating := updating }, none)

/-- Observable calls made by `state_execute`. -/
inductive Eff where
  | initPrinter : Eff
  | runCallback : Nat → Eff
deriving Repr, DecidableEq

/-- `KlipperScreen.state_execute` (src/screen.py:636-641): if the gate is
busy, append `[callback]` to the queue and return; otherwise run
`init_printer()` followed by `callback()`.  The effect list records the
invocations performed, in order. -/
def state_execute (s : GateState) (cb : Nat) : GateState × List Eff :=
  if is_updating s = true then
    ({ s with update_queue := s.update_queue ++ [cb] }, [])
  else
    (s, [Eff.initPrinter, Eff.runCallback cb])

/-! ## Initialization sequencer (src/screen.py:819-886, 86-87)

`init_printer` is a straight-line sequence of guarded API calls; the
environment captures the outcome of each call.  `server_info` is `none`
when `get_server_info()` returned `False`, otherwise `some b` where `b` is
the `klippy_connected` field of the response. -/

def max_retries : Nat := 4

structure InitEnv where
  server_info : Option Bool
  ws_connected : Bool
  powerdevs_ok : Bool
  printer_info_ok : Bool
  config_ok : Bool
  data_ok : Bool
  tempstore_ok : Bool
deriving Repr, DecidableEq

/-- Outcome of one `init_printer` call: the new `reinit_count`, whether
`self.connecting` was reassigned (and to what), whether power devices were
configured, whether `GLib.timeout_add_seconds(3, self.init_printer)` was
scheduled, and whether the run reached "Printer initialized". -/
structure InitResult where
  reinit_count : Nat
  set_connecting : Option Bool
  power_configured : Bool
  timer_scheduled : Bool
  initialized : Bool
deriving Repr, DecidableEq

/-- `KlipperScreen.init_printer` (src/screen.py:819-886).  Guard: return at
once when `reinit_count > max_retries` or the printer-select panel is on the
stack.  Stage 1 (`get_server_info`) failure: log and return, nothing else.
On probe success: set `connecting`, increment the counter, fetch power
devices, then the klippy-link / printer-info / config / bulk-data stages
each schedule a 3-second retry timer on failure; the temperature-store
fetch is best-effort; full success resets the counter to 0. -/
def init_printer (env : InitEnv) (reinit_count : Nat) (cur_panels : List String) :
    InitResult :=
  if reinit_count > max_retries ∨ "printer_select" ∈ cur_panels then
    ⟨reinit_count, none, false, false, false⟩
  else
    match env.server_info with
    | none => ⟨reinit_count, none, false, false, false⟩
    | some klippy_connected =>
      let conn := !env.ws_connected
      let count := reinit_count + 1
      let pwr := env.powerdevs_ok
      if klippy_connected = false then
        ⟨count, some conn, pwr, true, false⟩
      else if env.printer_info_ok = false then
        ⟨count, some conn, pwr, true, false⟩
      else if env.config_ok = false then
        ⟨count, some conn, pwr, true, false⟩
      else if env.data_ok = false then
        ⟨count, some conn, pwr, true, false⟩
      else
        ⟨0, some conn, pwr, false, true⟩

/-- An environment in which the reachability probe succeeds but the
host/firmware link is down (`klippy_connected = False`): a stage-2 failure. -/
def stage2_fail_env : InitEnv :=
  ⟨some false, true, true, true, true, true, true⟩

/-- An environment in which every stage succeeds. -/
def all_ok_env : InitEnv :=
  ⟨some true, true, true, true, true, true, true⟩

/-- An environment in which the stage-1 reachability probe itself fails
(`get_server_info()` returned `False`). -/
def stage1_fail_env : InitEnv :=
  ⟨none, true, true, true, true, true, true⟩

/-- `reinit_count` after `n` consecutive `init_printer` calls against a fixed
environment, starting from a fresh counter and an empty panel stack. -/
def init_iter (env : InitEnv) : Nat → Nat
  | 0 => 0
  | n + 1 => (init_printer env (init_iter env n) []).reinit_count

/-! ## Navigation stack and subscription registry
(src/screen.py:70, 77, 81, 255-286, 476-524)

`cur_panels` is `self._cur_panels` (names of views on the stack, last =
top), `panels` the key set of the `self.panels` memo dict, `subscriptions`
the `self.subscriptions` list.  The capability predicate `hp` tells which
panel classes expose a `process_update` method (`hasattr` checks in the
source); `activate` / `deactivate` / widget calls have no effect on these
three fields and are elided. -/

structure NavState where
  cur_panels : List String
  panels : List String
  subscriptions : List String
deriving Repr, DecidableEq

/-- `KlipperScreen.add_subscription` (src/screen.py:522-524): append the
panel name only when it is not already present. -/
def add_subscription (subs : List String) (panel_name : String) : List String :=
  if panel_name ∈ subs then subs else subs ++ [panel_name]

/-- `KlipperScreen._remove_all_panels` (src/screen.py:476-486): clear the
subscription list and the panel stack; drop every memoized panel except
`printer_select` and `splash_screen`. -/
def remove_all_panels (s : NavState) : NavState :=
  { cur_panels := [],
    panels := s.panels.filter (fun p => p == "printer_select" || p == "splash_screen"),
    subscriptions := [] }

/-- `KlipperScreen._remove_current_panel` (src/screen.py:488-506).  When the
stack is empty (`len(self._cur_panels) <= 0`) it calls `reload_panels()`
(src/screen.py:702-704), which runs `_remove_all_panels()` — clearing the
subscription list and the stack and dropping every memoized panel except
`printer_select` and `splash_screen` — and then redispatches the current
printer state via `printer.change_state(self.printer.state)`; the
`_remove_all_panels` effect on these fields is applied here and the Bool
result records that the reload (including that state-callback redispatch,
which lives at the `SysState` level) was triggered.  Otherwise it removes
the top's subscription (`list.remove`, first occurrence), and when `pop` is
true pops the stack and, if a view remains, re-registers the new top's
subscription when that view has a `process_update` method. -/
def remove_current_panel (hp : String → Bool) (s : NavState) (pop : Bool) :
    NavState × Bool :=
  match s.cur_panels.getLast? with
  | none => (remove_all_panels s, true)
  | some top =>
    let s1 : NavState := { s with subscriptions := s.subscriptions.erase top }
    if pop = true then
      let cur := s1.cur_panels.dropLast
      let s2 : NavState := { s1 with cur_panels := cur }
      match cur.getLast? with
      | some newtop =>
        if hp newtop then
          ({ s2 with subscriptions := add_subscription s2.subscriptions newtop }, false)
        else
          (s2, false)
      | none => (s2, false)
    else
      (s1, false)

/-- `KlipperScreen.show_panel` (src/screen.py:255-286) restricted to the
successful-load path.  `remove` is the Python keyword argument (`None`,
`1` or `2`); a value of `2` first removes all panels, `1` removes the
current one.  The panel instance is memoized by name; a panel exposing
`process_update` is registered in the subscription list; finally the name
is appended to `self._cur_panels` unconditionally (line 285). -/
def show_panel (hp : String → Bool) (s : NavState) (panel_name : String)
    (remove : Option Nat) (pop : Bool) : NavState :=
  let s0 :=
    if remove = some 2 then remove_all_panels s
    else if remove = some 1 then (remove_current_panel hp s pop).1
    else s
  let s1 : NavState :=
    { s0 with panels := if panel_name ∈ s0.panels then s0.panels else s0.panels ++ [panel_name] }
  let s2 : NavState :=
    if hp panel_name then
      { s1 with subscriptions := add_subscription s1.subscriptions panel_name }
    else s1
  { s2 with cur_panels := s2.cur_panels ++ [panel_name] }

/-! ## Printer state machine and websocket dispatch
(src/screen.py:653-691, 702-747, 786-790, 893-904)

The printer's operational state is a string (as in `ks_includes.printer`);
the navigation effect of each state callback registered in
`connect_printer` (src/screen.py:176-184) is modelled on `NavState`. -/

structure SysState where
  printer_state : String
  nav : NavState
deriving Repr, DecidableEq

/-- `KlipperScreen.printer_initializing` (src/screen.py:786-790): when no
splash screen is memoized, or `remove` is requested, show the splash screen
with `remove = 2`; then update its text (elided). -/
def printer_initializing (hp : String → Bool) (nav : NavState) (remove : Bool) :
    NavState :=
  if "splash_screen" ∉ nav.panels ∨ remove = true then
    show_panel hp nav "splash_screen" (some 2) true
  else nav

/-- `KlipperScreen.printer_ready` (src/screen.py:893-896): show the main
menu with `remove = 2`. -/
def printer_ready (hp : String → Bool) (nav : NavState) : NavState :=
  show_panel hp nav "main_panel" (some 2) true

/-- `KlipperScreen.printer_printing` (src/screen.py:898-904): show the
job-status panel with `remove = 2`. -/
def printer_printing (hp : String → Bool) (nav : NavState) : NavState :=
  show_panel hp nav "job_status" (some 2) true

/-- `KlipperScreen.state_ready` (src/screen.py:678-682): do not navigate
when the job-status view is on the stack. -/
def state_ready (hp : String → Bool) (nav : NavState) : NavState :=
  if "job_status" ∈ nav.cur_panels then nav else printer_ready hp nav

/-- `KlipperScreen.state_printing` (src/screen.py:672-676): navigate to the
job-status panel unless it is already on the stack (in which case only its
`new_print` refresh runs, leaving the stack alone). -/
def state_printing (hp : String → Bool) (nav : NavState) : NavState :=
  if "job_status" ∈ nav.cur_panels then nav else printer_printing hp nav

/-- `KlipperScreen.state_paused` (src/screen.py:668-670). -/
def state_paused (hp : String → Bool) (nav : NavState) : NavState :=
  if "job_status" ∈ nav.cur_panels then nav else printer_printing hp nav

/-- Navigation effect of the state callback bound to each printer state in
`KlipperScreen.connect_printer` (src/screen.py:176-184):
`state_disconnected`, `state_error` and `state_shutdown` call
`printer_initializing(..., remove=True)`; `state_startup` calls it with
`remove=False` (src/screen.py:653-691). -/
def state_callback (hp : String → Bool) (nav : NavState) (st : String) : NavState :=
  if st = "disconnected" then printer_initializing hp nav true
  else if st = "error" then printer_initializing hp nav true
  else if st = "paused" then state_paused hp nav
  else if st = "printing" then state_printing hp nav
  else if st = "ready" then state_ready hp nav
  else if st = "startup" then printer_initializing hp nav false
  else if st = "shutdown" then printer_initializing hp nav true
  else nav

/-- Modelled from the spec: `Printer.change_state` lives in
`ks_includes/printer.py`, which is not under `src/`.  Per the spec's
Printer State Machine section it "sets current state (no-op if unchanged)
and invokes the single callback bound to `new_state`" — the callback is not
invoked when the state is unchanged.  The callbacks are those registered in
`KlipperScreen.connect_printer` (src/screen.py:176-184), modelled by
`state_callback`. -/
def change_state (hp : String → Bool) (s : SysState) (new_state : String) : SysState :=
  if s.printer_state = new_state then s
  else { printer_state := new_state, nav := state_callback hp s.nav new_state }

/-- Observable calls made by `_websocket_callback` beyond the navigation
effects of state transitions. -/
inductive WsEff where
  | changeState : String → WsEff
  | printerProcessUpdate : WsEff
  | filesProcessUpdate : WsEff
  | requestMetadata : WsEff
  | popupMessage : Nat → WsEff
  | powerUpdate : WsEff
  | checkPowerStatus : WsEff
  | confirmSaveConfig : WsEff
  | basePanelProcessUpdate : WsEff
  | topPanelProcessUpdate : WsEff
deriving Repr, DecidableEq

/-- The payload tests `_websocket_callback` performs on `data`. -/
structure WsData where
  has_error_message : Bool
  starts_temp : Bool
  starts_echo : Bool
  starts_bang : Bool
  has_save_config : Bool
deriving Repr, DecidableEq

/-- The `notify_gcode_response` branch of `_websocket_callback`
(src/screen.py:731-744): temperature reports (`B:`/`T:` prefixes) are
ignored; `echo:` lines raise a level-1 popup, `!! ` lines a level-3 popup;
a `SAVE_CONFIG` mention while the printer is `ready` opens a confirmation
dialog. -/
def gcode_effects (printer_state : String) (d : WsData) : List WsEff :=
  if d.starts_temp then []
  else
    (if d.starts_echo then [WsEff.popupMessage 1]
     else if d.starts_bang then [WsEff.popupMessage 3]
     else [])
    ++ (if d.has_save_config ∧ printer_state = "ready" then [WsEff.confirmSaveConfig] else [])

/-- `KlipperScreen._websocket_callback` (src/screen.py:706-747).  All
notifications are dropped while `connecting` is set.
`notify_klippy_disconnected` transitions and returns early (skipping the
trailing base-panel/top-panel delivery); `notify_klippy_shutdown` and
`notify_klippy_ready` transition and fall through; `notify_status_update`
is forwarded to `printer.process_update` only when the state is not
`shutdown`; `notify_gcode_response` is handled only when the state is in
neither `error` nor `shutdown`.  Finally the base panel receives the
message, and the top panel too when it is in the subscription list. -/
def websocket_callback (hp : String → Bool) (connecting : Bool)
    (files_present : Bool) (s : SysState) (action : String) (d : WsData) :
    SysState × List WsEff :=
  if connecting = true then (s, [])
  else if action = "notify_klippy_disconnected" then
    (change_state hp s "disconnected", [WsEff.changeState "disconnected"])
  else
    let step : SysState × List WsEff :=
      if action = "notify_klippy_shutdown" then
        (change_state hp s "shutdown", [WsEff.changeState "shutdown"])
      else if action = "notify_klippy_ready" then
        (change_state hp s "ready", [WsEff.changeState "ready"])
      else if action = "notify_status_update" ∧ s.printer_state ≠ "shutdown" then
        (s, [WsEff.printerProcessUpdate])
      else if action = "notify_filelist_changed" then
        (s, if files_present then [WsEff.filesProcessUpdate] else [])
      else if action = "notify_metadata_update" then
        (s, [WsEff.requestMetadata])
      else if action = "notify_update_response" then
        (s, if d.has_error_message then [WsEff.popupMessage 3] else [])
      else if action = "notify_power_changed" then
        (s, [WsEff.powerUpdate, WsEff.checkPowerStatus])
      else if action = "notify_gcode_response" ∧
          s.printer_state ≠ "error" ∧ s.printer_state ≠ "shutdown" then
        (s, gcode_effects s.printer_state d)
      else (s, [])
    let s1 := step.1
    let tail : List WsEff :=
      match s1.nav.cur_panels.getLast? with
      | some top =>
        if top ∈ s1.nav.subscriptions then [WsEff.topPanelProcessUpdate] else []
      | none => []
    (s1, step.2 ++ [WsEff.basePanelProcessUpdate] ++ tail)

/-! ## Theorems -/

/-- C1, counterexample: releasing the busy Update Gate with deferred queue
`[0, 1]` invokes deferred action `1` — not the first queued action `0` —
because `list.pop()` removes the last element.  The claim "the first one in
the queue is invoked" is false. -/
theorem set_updating_release_first_refuted :
    (set_updating ⟨true, [0, 1]⟩ false).2 = some 1 ∧
    ([0, 1] : List Nat).head? = some 0 ∧
    (set_updating ⟨true, [0, 1]⟩ false).2 ≠ ([0, 1] : List Nat).head? := by
  decide

/-- C1 (amended): when the Update Gate is released (`set_updating` with
`updating = False`) while it was busy and the deferred queue is non-empty,
the queue existing at release time is replaced by the empty queue and
exactly one deferred action — the LAST one in the queue — is invoked; no
other queued action is ever run. -/
theorem set_updating_release_drains_and_runs_last (s : GateState)
    (hbusy : s.updating = true) (hq : s.update_queue ≠ []) :
    set_updating s false
      = ({ updating := false, update_queue := [] }, s.update_queue.getLast?) := by
  unfold set_updating
  rw [if_pos ⟨hbusy, rfl, List.length_pos.mpr hq⟩]

/-- C1 witness: concrete release of a busy gate with queue `[7, 9]`. -/
theorem set_updating_release_drains_and_runs_last_witness :
    set_updating ⟨true, [7, 9]⟩ false
      = ({ updating := false, update_queue := [] }, ([7, 9] : List Nat).getLast?) :=
  set_updating_release_drains_and_runs_last ⟨true, [7, 9]⟩ rfl (by decide)

/-- C2: while the Update Gate reports busy, `state_execute` appends the
callback to the deferred queue and returns with no invocation performed:
neither `init_printer` nor the callback runs. -/
theorem state_execute_busy_defers (s : GateState) (cb : Nat)
    (h : is_updating s = true) :
    state_execute s cb = ({ s with update_queue := s.update_queue ++ [cb] }, []) := by
  unfold state_execute
  rw [if_pos h]

/-- C2 witness: deferring callback `3` on a concrete busy gate. -/
theorem state_execute_busy_defers_witness :
    state_execute ⟨true, []⟩ 3 = (⟨true, [3]⟩, []) :=
  state_execute_busy_defers ⟨true, []⟩ 3 rfl

/-- C3, counterexample: starting from a fresh counter, `max_retries + 1`
consecutive stage-2 failures leave `reinit_count = max_retries + 1`; a
subsequent call in an environment where every request (in particular the
reachability probe) succeeds leaves the counter at `max_retries + 1`, not
0 — the guard returns before the probe, so a successful probe never resets
the counter. -/
theorem init_printer_probe_reset_refuted :
    init_iter stage2_fail_env (max_retries + 1) = max_retries + 1 ∧
    (init_printer all_ok_env (max_retries + 1) []).reinit_count ≠ 0 ∧
    (init_printer all_ok_env (max_retries + 1) []).initialized = false := by
  decide

/-- C3 (amended): each of the first `max_retries + 1` consecutive stage-2
failures increments the counter and schedules a retry timer; once
`reinit_count` exceeds `max_retries` every `init_printer` call returns
immediately — no timer scheduled, counter untouched; the counter is reset
to 0 only by a fully successful initialization entered with
`reinit_count ≤ max_retries`. -/
theorem init_printer_retry_bound :
    (∀ n, n ≤ max_retries + 1 → init_iter stage2_fail_env n = n) ∧
    (∀ count cur_panels, count ≤ max_retries → "printer_select" ∉ cur_panels →
      init_printer stage2_fail_env count cur_panels
        = ⟨count + 1, some false, true, true, false⟩) ∧
    (∀ env count cur_panels, max_retries < count →
      init_printer env count cur_panels = ⟨count, none, false, false, false⟩) ∧
    (∀ count cur_panels, count ≤ max_retries → "printer_select" ∉ cur_panels →
      init_printer all_ok_env count cur_panels = ⟨0, some false, true, false, true⟩) := by
  refine ⟨?_, ?_, ?_, ?_⟩
  · intro n hn
    have hn5 : n ≤ 5 := hn
    interval_cases n <;> rfl
  · intro count cur_panels h1 h2
    have hg : ¬(count > max_retries ∨ "printer_select" ∈ cur_panels) := by
      rintro (hc | hm)
      · exact absurd h1 (by omega)
      · exact h2 hm
    unfold init_printer
    rw [if_neg hg]
    rfl
  · intro env count cur_panels h
    unfold init_printer
    rw [if_pos (Or.inl h)]
  · intro count cur_panels h1 h2
    have hg : ¬(count > max_retries ∨ "printer_select" ∈ cur_panels) := by
      rintro (hc | hm)
      · exact absurd h1 (by omega)
      · exact h2 hm
    unfold init_printer
    rw [if_neg hg]
    rfl

/-- C3 witness: a concrete stage-2 failure at `reinit_count = 2` increments
to 3 and schedules a retry timer. -/
theorem init_printer_retry_bound_witness :
    init_printer stage2_fail_env 2 [] = ⟨3, some false, true, true, false⟩ :=
  init_printer_retry_bound.2.1 2 [] (by decide) (by decide)

/-- C8, counterexample: a stage-1 failure (`get_server_info()` returned
`False`) leaves `reinit_count` unchanged but schedules NO retry timer —
`init_printer` logs and returns (src/screen.py:823-825), refuting "schedules
a delayed retry of stage 1". -/
theorem init_printer_stage1_retry_refuted :
    (init_printer stage1_fail_env 0 []).timer_scheduled = false ∧
    (init_printer stage1_fail_env 0 []).reinit_count = 0 ∧
    init_printer stage1_fail_env 0 [] = ⟨0, none, false, false, false⟩ := by
  decide

/-- C8 (amended): when the stage-1 reachability probe fails, `init_printer`
leaves `reinit_count` unchanged, does not set `connecting`, configures no
power devices, schedules no retry timer, and does not initialize — it
simply returns; a later retry depends on an external re-trigger (the
websocket `on_connect` path), not on a timer scheduled here. -/
theorem init_printer_stage1_failure_no_retry (env : InitEnv) (count : Nat)
    (cur_panels : List String) (h : env.server_info = none) :
    init_printer env count cur_panels = ⟨count, none, false, false, false⟩ := by
  unfold init_printer
  split
  · rfl
  · rw [h]

/-- C8 witness: concrete stage-1 failure with a fresh counter. -/
theorem init_printer_stage1_failure_no_retry_witness :
    init_printer stage1_fail_env 0 [] = ⟨0, none, false, false, false⟩ :=
  init_printer_stage1_failure_no_retry stage1_fail_env 0 [] rfl

/-- C4, counterexample: with `main_panel` alone on the stack (and memoized),
a second `show_panel` for the same name with `remove = None` pushes a
duplicate: the stack becomes `[main_panel, main_panel]`, which is neither
unchanged nor duplicate-free. -/
theorem show_panel_idempotence_refuted :
    (show_panel (fun _ => false) ⟨["main_panel"], ["main_panel"], []⟩
        "main_panel" none true).cur_panels = ["main_panel", "main_panel"] ∧
    ¬ (["main_panel", "main_panel"] : List String).Nodup := by
  decide

/-- C4 (amended): `show_panel` with `remove = None` always appends the view
identifier to the navigation stack — even when the same identifier is
already on top — so a repeated call pushes a duplicate instead of leaving
the stack unchanged; no duplicate check exists at this level. -/
theorem show_panel_none_appends (hp : String → Bool) (s : NavState)
    (panel_name : String) (pop : Bool) :
    (show_panel hp s panel_name none pop).cur_panels
      = s.cur_panels ++ [panel_name] := by
  cases h : hp panel_name <;> simp [show_panel, h]

/-- C5, counterexample: with exactly one view on the stack,
`_remove_current_panel(pop=True)` pops it, leaving the stack EMPTY, and the
reload branch is not taken — refuting "does not pop that view but instead
triggers a full reload" and the never-empty consequence. -/
theorem remove_current_panel_singleton_refuted :
    remove_current_panel (fun _ => false)
        ⟨["main_panel"], ["main_panel"], ["main_panel"]⟩ true
      = (⟨[], ["main_panel"], []⟩, false) := by
  decide

/-- C5 (amended): calling `_remove_current_panel` with `pop = True` when
exactly one view remains pops that view, leaving an empty navigation stack,
and does not trigger a reload; the full-reload special case is triggered
exactly when the stack is already empty. -/
theorem remove_current_panel_singleton_pops_empty (hp : String → Bool)
    (top : String) (panels subs panels0 subs0 : List String) :
    (remove_current_panel hp ⟨[top], panels, subs⟩ true).1.cur_panels = [] ∧
    (remove_current_panel hp ⟨[top], panels, subs⟩ true).2 = false ∧
    (remove_current_panel hp ⟨[], panels0, subs0⟩ true).2 = true :=
  ⟨rfl, rfl, rfl⟩

/-- Appending through `add_subscription` preserves distinctness. -/
theorem add_subscription_nodup (subs : List String) (n : String)
    (h : subs.Nodup) : (add_subscription subs n).Nodup := by
  unfold add_subscription
  split
  · exact h
  · rename_i hn
    simp [List.nodup_append, h, hn]

/-- `_remove_current_panel` preserves distinctness of the subscription
list. -/
theorem remove_current_panel_subs_nodup (hp : String → Bool) (s : NavState)
    (pop : Bool) (h : s.subscriptions.Nodup) :
    ((remove_current_panel hp s pop).1).subscriptions.Nodup := by
  unfold remove_current_panel
  split
  · exact List.nodup_nil
  · split
    · dsimp only
      split
      · split
        · exact add_subscription_nodup _ _ (h.erase _)
        · exact h.erase _
      · exact h.erase _
    · exact h.erase _

/-- `show_panel` preserves distinctness of the subscription list. -/
theorem show_panel_subs_nodup (hp : String → Bool) (s : NavState)
    (panel_name : String) (remove : Option Nat) (pop : Bool)
    (h : s.subscriptions.Nodup) :
    (show_panel hp s panel_name remove pop).subscriptions.Nodup := by
  have h0 : (if remove = some 2 then remove_all_panels s
      else if remove = some 1 then (remove_current_panel hp s pop).1
      else s).subscriptions.Nodup := by
    split
    · exact List.nodup_nil
    · split
      · exact remove_current_panel_subs_nodup hp s pop h
      · exact h
  cases hhp : hp panel_name <;> simp only [show_panel, hhp] <;> simp only [Bool.false_eq_true, if_false, if_true]
  · exact h0
  · exact add_subscription_nodup _ _ h0

/-- C10: `add_subscription` inserts only when the name is absent (it is the
identity on a list already containing the name), and each of the operations
touching the subscription list — `add_subscription`, `show_panel`,
`_remove_current_panel`, `_remove_all_panels` — preserves its
distinctness. -/
theorem subscriptions_distinct (hp : String → Bool) (s : NavState)
    (n panel_name : String) (remove : Option Nat) (pop : Bool)
    (h : s.subscriptions.Nodup) :
    (n ∈ s.subscriptions → add_subscription s.subscriptions n = s.subscriptions) ∧
    (add_subscription s.subscriptions n).Nodup ∧
    (show_panel hp s panel_name remove pop).subscriptions.Nodup ∧
    ((remove_current_panel hp s pop).1).subscriptions.Nodup ∧
    (remove_all_panels s).subscriptions.Nodup :=
  ⟨fun hm => by unfold add_subscription; rw [if_pos hm],
   add_subscription_nodup _ _ h,
   show_panel_subs_nodup hp s panel_name remove pop h,
   remove_current_panel_subs_nodup hp s pop h,
   List.nodup_nil⟩

/-- C10 witness: the distinctness facts at a concrete navigation state. -/
theorem subscriptions_distinct_witness :
    ("hm" ∈ (["hm", "job_status"] : List String) →
      add_subscription ["hm", "job_status"] "hm" = ["hm", "job_status"]) ∧
    (add_subscription ["hm", "job_status"] "hm").Nodup ∧
    (show_panel (fun _ => true) ⟨["hm"], ["hm"], ["hm", "job_status"]⟩
        "main_panel" (some 1) true).subscriptions.Nodup ∧
    ((remove_current_panel (fun _ => true) ⟨["hm"], ["hm"], ["hm", "job_status"]⟩
        true).1).subscriptions.Nodup ∧
    (remove_all_panels ⟨["hm"], ["hm"], ["hm", "job_status"]⟩).subscriptions.Nodup :=
  subscriptions_distinct (fun _ => true) ⟨["hm"], ["hm"], ["hm", "job_status"]⟩
    "hm" "main_panel" (some 1) true (by decide)

/-- C9: while the `connecting` flag is set, `_websocket_callback` drops
every incoming notification of every action kind before any dispatch: the
state is unchanged and no effect at all — no state transition, no delta
merge, no base-panel or top-panel delivery — is produced. -/
theorem websocket_connecting_drops_all (hp : String → Bool)
    (files_present : Bool) (s : SysState) (action : String) (d : WsData) :
    websocket_callback hp true files_present s action d = (s, []) := by
  unfold websocket_callback
  rw [if_pos rfl]

/-- C6: a `notify_status_update` delta arriving while the printer state is
`shutdown` is rejected: `printer.process_update` is not invoked (so the
object-status cache is untouched) and the controller state is unchanged. -/
theorem websocket_shutdown_rejects_delta (hp : String → Bool)
    (files_present : Bool) (s : SysState) (d : WsData)
    (h : s.printer_state = "shutdown") :
    (websocket_callback hp false files_present s "notify_status_update" d).1 = s ∧
    WsEff.printerProcessUpdate ∉
      (websocket_callback hp false files_present s "notify_status_update" d).2 := by
  obtain ⟨ps, nav⟩ := s
  dsimp only at h
  subst h
  refine ⟨rfl, ?_⟩
  simp only [websocket_callback]
  simp
  split <;> simp

/-- C6 witness: a concrete shutdown-state delta is rejected. -/
theorem websocket_shutdown_rejects_delta_witness :
    (websocket_callback (fun _ => false) false false ⟨"shutdown", ⟨[], [], []⟩⟩
        "notify_status_update" ⟨false, false, false, false, false⟩).1
      = ⟨"shutdown", ⟨[], [], []⟩⟩ ∧
    WsEff.printerProcessUpdate ∉
      (websocket_callback (fun _ => false) false false ⟨"shutdown", ⟨[], [], []⟩⟩
        "notify_status_update" ⟨false, false, false, false, false⟩).2 :=
  websocket_shutdown_rejects_delta (fun _ => false) false ⟨"shutdown", ⟨[], [], []⟩⟩
    ⟨false, false, false, false, false⟩ rfl

/-- C7: a `notify_klippy_ready` notification arriving while `job_status` is
anywhere on the navigation stack makes the printer state `ready` internally
while the ready callback performs no navigation change: the stack, panels
and subscriptions are exactly as before, so the progress view stays
visible. -/
theorem websocket_ready_keeps_job_status (hp : String → Bool)
    (files_present : Bool) (s : SysState) (d : WsData)
    (h : "job_status" ∈ s.nav.cur_panels) :
    ((websocket_callback hp false files_present s "notify_klippy_ready" d).1).printer_state
      = "ready" ∧
    ((websocket_callback hp false files_present s "notify_klippy_ready" d).1).nav
      = s.nav := by
  obtain ⟨ps, nav⟩ := s
  dsimp only at h
  have hstep : (websocket_callback hp false files_present ⟨ps, nav⟩
      "notify_klippy_ready" d).1 = change_state hp ⟨ps, nav⟩ "ready" := rfl
  rw [hstep]
  unfold change_state
  constructor
  · split
    · rename_i hps; exact hps
    · rfl
  · split
    · rfl
    · show state_callback hp nav "ready" = nav
      unfold state_callback
      simp [state_ready, h]

/-- C7 witness: ready notification at a concrete printing state with the
job-status view on top. -/
theorem websocket_ready_keeps_job_status_witness :
    ((websocket_callback (fun _ => false) false false
        ⟨"printing", ⟨["job_status"], ["job_status"], []⟩⟩ "notify_klippy_ready"
        ⟨false, false, false, false, false⟩).1).printer_state = "ready" ∧
    ((websocket_callback (fun _ => false) false false
        ⟨"printing", ⟨["job_status"], ["job_status"], []⟩⟩ "notify_klippy_ready"
        ⟨false, false, false, false, false⟩).1).nav
      = ⟨["job_status"], ["job_status"], []⟩ :=
  websocket_ready_keeps_job_status (fun _ => false) false
    ⟨"printing", ⟨["job_status"], ["job_status"], []⟩⟩
    ⟨false, false, false, false, false⟩ (by decide)

end KS
